import Mathlib

/-!
Shallow embedding of the OAuth credential-lifecycle subsystem of the
ConfidenciaKoyeb repository (Django app).  The embedded code lives in
`src/accounts/views_calendar.py`, `src/accounts/views_drive_oauth.py`,
`src/accounts/google_calendar.py` and `src/core/google_drive.py`.
Network calls (the provider's token endpoint, the resource API) are
modelled as explicit outcome parameters; time is an `Int` epoch value.
-/

namespace ConfidenciaKoyeb

/-- Calendar read-write scope, `views_calendar.py` line 26 (`CAL_SCOPE`). -/
def CAL_SCOPE : String := "https://www.googleapis.com/auth/calendar"

/-- Requested scope list, `views_calendar.py` line 27 (`SCOPES`). -/
def SCOPES : List String := [CAL_SCOPE]

/-- Calendar read-only scope, as appears in `google_calendar.py` line 16. -/
def CAL_RO_SCOPE : String := "https://www.googleapis.com/auth/calendar.readonly"

/-- Scope list of `google_calendar.py` lines 14-17 (`CAL_SCOPES`): read-only. -/
def CAL_SCOPES : List String := [CAL_RO_SCOPE]

/-- Drive scope, `views_drive_oauth.py` line 15 / `google_drive.py` line 18. -/
def DRIVE_SCOPE : String := "https://www.googleapis.com/auth/drive"

/-- Scope list for the Drive integration. -/
def DRIVE_SCOPES : List String := [DRIVE_SCOPE]

/-- A `google.oauth2.credentials.Credentials` object, restricted to the
fields this repository reads: bearer token, refresh token, expiry
(epoch seconds; `none` means no expiry recorded) and scopes. -/
structure Credentials where
  token : String
  refresh_token : Option String
  expiry : Option Int
  scopes : List String
deriving DecidableEq

/-- The library's `creds.expired` property: false when no expiry is
recorded, otherwise true once the expiry is reached (the library's small
clock-skew allowance is immaterial here and elided). -/
def Credentials.expired (c : Credentials) (now : Int) : Bool :=
  match c.expiry with
  | none => false
  | some e => decide (e ≤ now)

/-- The JSON object produced by `creds.to_json()`: the same four fields,
serialized.  (`client_id`/`client_secret`/`token_uri` are static
configuration and carried implicitly.) -/
structure TokenJson where
  token : String
  refresh_token : Option String
  expiry : Option Int
  scopes : List String
deriving DecidableEq

/-- `creds.to_json()` from the google-auth library: serializes every
field, including the granted scopes. -/
def Credentials.to_json (c : Credentials) : TokenJson :=
  { token := c.token, refresh_token := c.refresh_token,
    expiry := c.expiry, scopes := c.scopes }

/-- Modelled from the google-auth library contract (an external
dependency of this repository): `Credentials.from_authorized_user_info
(info, scopes)` rebuilds a credentials object from serialized JSON, and
when a `scopes` argument is passed (as every call site in this
repository does) the scopes of the returned object are set to that
argument, ignoring `info["scopes"]`. -/
def from_authorized_user_info (info : TokenJson) (scopes : List String) : Credentials :=
  { token := info.token, refresh_token := info.refresh_token,
    expiry := info.expiry, scopes := scopes }

/-- One serialized cell of a token store (`credentials_json` column, a
token file): either well-formed JSON or corrupt/unparseable content. -/
inductive StoredCell where
  | good (j : TokenJson)
  | corrupt
deriving DecidableEq

/-- The `GoogleOAuthToken` table (`accounts/models.py` line 94): one row
per user id, holding serialized credentials. -/
abbrev Db := List (Nat × StoredCell)

/-- `GoogleOAuthToken.objects.get(user=user)` as a lookup. -/
def dbLookup (db : Db) (u : Nat) : Option StoredCell :=
  (db.find? (fun p => p.1 == u)).map (fun p => p.2)

/-- Errors that escape the embedded functions as Python exceptions. -/
inductive GError where
  | refreshError
  | parseError
deriving DecidableEq

/-- `_db_get_user_creds` (`views_calendar.py` lines 74-79): looks the row
up, catching only `GoogleOAuthToken.DoesNotExist` (absent row gives
`None`); a corrupt `credentials_json` makes `json.loads` raise, and that
exception is NOT caught, so it propagates (`.error .parseError`). -/
def dbGetUserCreds (u : Nat) (db : Db) : Except GError (Option Credentials) :=
  match dbLookup db u with
  | none => .ok none
  | some .corrupt => .error .parseError
  | some (.good j) => .ok (some (from_authorized_user_info j SCOPES))

/-- `_db_save_user_creds` (`views_calendar.py` lines 81-86):
`update_or_create`, storing `creds.to_json()` for the user. -/
def dbSaveUserCreds (u : Nat) (c : Credentials) (db : Db) : Db :=
  (u, StoredCell.good c.to_json) :: db.filter (fun p => p.1 != u)

/-- `_db_clear_user_creds` (`views_calendar.py` lines 88-89). -/
def dbClearUserCreds (u : Nat) (db : Db) : Db :=
  db.filter (fun p => p.1 != u)

/-- `get_user_creds` (`google_calendar.py` lines 83-91): the per-user
token file; a missing file gives `None`, and any parse failure is
swallowed by `except Exception` and also gives `None`. -/
def get_user_creds (file : Option StoredCell) : Option Credentials :=
  match file with
  | none => none
  | some .corrupt => none
  | some (.good j) => some (from_authorized_user_info j CAL_SCOPES)

/-- `save_user_creds` (`google_calendar.py` lines 93-95): overwrites the
token file with `creds.to_json()`. -/
def save_user_creds (c : Credentials) : Option StoredCell :=
  some (.good c.to_json)

/-- The Django session keys touched by the calendar OAuth flow
(`google_creds`, `google_oauth_state`, `google_oauth_redirect_uri`). -/
structure Session where
  google_creds : Option StoredCell
  google_oauth_state : Option String
  google_oauth_redirect_uri : Option String
deriving DecidableEq

/-- `_clear_google_session` (`views_calendar.py` lines 95-99): pops every
OAuth-related session key.  It touches ONLY the web session (the
ephemeral cache), never the `GoogleOAuthToken` table. -/
def clearGoogleSession (_ : Session) : Session :=
  { google_creds := none, google_oauth_state := none,
    google_oauth_redirect_uri := none }

/-- The scope test of `_get_valid_creds` (`views_calendar.py` lines
138-139): the credentials pass if their scopes contain `CAL_SCOPE`
itself, or any scope string starting with `CAL_SCOPE + "."` (Python
`s.startswith(CAL_SCOPE + ".")`) — which includes the strictly narrower
`...calendar.readonly` scope. -/
def calScopeCheck (scopes : List String) : Bool :=
  scopes.contains CAL_SCOPE
    || scopes.any (fun s => List.isPrefixOf (CAL_SCOPE ++ ".").data s.data)

/-- Outcome of one refresh exchange against the provider's token
endpoint (`creds.refresh(GoogleRequest())`): a fresh access token with
its expiry, or a rejection (the library raises `RefreshError`). -/
inductive RefreshOutcome where
  | ok (newToken : String) (newExpiry : Int)
  | err
deriving DecidableEq

/-- Step 1 of `_get_valid_creds` (`views_calendar.py` lines 111-116):
parse the session's `google_creds`; parse failures are swallowed and
give `None`. -/
def sessionLoad (sess : Session) : Option Credentials :=
  match sess.google_creds with
  | some (.good j) => some (from_authorized_user_info j SCOPES)
  | _ => none

/-- The tail of `_get_valid_creds` (`views_calendar.py` lines 127-142)
once a credentials object is in hand: refresh when expired (returning
`None` without any network call when `refresh_token` is absent, raising
`RefreshError` when the provider rejects, persisting to session and —
for an authenticated user — to the database on success), then the scope
check, then return. -/
def afterLoad (now : Int) (c : Credentials) (sess : Session) (db : Db)
    (user : Nat) (authenticated : Bool) (resp : RefreshOutcome) :
    Except GError (Option Credentials × Session × Db) :=
  if c.expired now then
    match c.refresh_token with
    | none => .ok (none, sess, db)
    | some _ =>
      match resp with
      | .err => .error .refreshError
      | .ok t e =>
        let c' : Credentials := { c with token := t, expiry := some e }
        let sess' : Session := { sess with google_creds := some (.good c'.to_json) }
        let db' : Db := if authenticated then dbSaveUserCreds user c' db else db
        if calScopeCheck c'.scopes then .ok (some c', sess', db')
        else .ok (none, sess', db')
  else
    if calScopeCheck c.scopes then .ok (some c, sess, db)
    else .ok (none, sess, db)

/-- `_get_valid_creds` (`views_calendar.py` lines 102-142): try the
session cache, then (for an authenticated user) the database — caching a
database hit back into the session — then refresh/validate via
`afterLoad`.  A corrupt database row raises out of the function. -/
def getValidCreds (now : Int) (sess : Session) (db : Db) (user : Nat)
    (authenticated : Bool) (resp : RefreshOutcome) :
    Except GError (Option Credentials × Session × Db) :=
  match sessionLoad sess with
  | some c => afterLoad now c sess db user authenticated resp
  | none =>
    if authenticated then
      match dbGetUserCreds user db with
      | .error e => .error e
      | .ok none => .ok (none, sess, db)
      | .ok (some c) =>
        afterLoad now c { sess with google_creds := some (.good c.to_json) }
          db user authenticated resp
    else .ok (none, sess, db)

/-- The query parameters the provider sends to the callback route:
the echoed `state` (absent when stripped) and the authorization code. -/
structure CallbackParams where
  state : Option String
  code : String
deriving DecidableEq

/-- Outcome of the code-for-token exchange at the provider's token
endpoint: the credentials the provider mints, or a rejection (for
example `invalid_grant` on a reused or bad code — the library raises). -/
inductive ExchangeOutcome where
  | ok (creds : Credentials)
  | err
deriving DecidableEq

/-- `flow.fetch_token(authorization_response=...)`, modelled from the
google-auth-oauthlib / oauthlib contract (external dependencies): the
library first checks the `state` echoed in the callback URL against the
state the `Flow` was constructed with, raising `MismatchingStateError`
on any difference, and only then performs the exchange, which itself can
be rejected.  Both failure modes surface as a raised exception (`none`). -/
def fetchToken (storedState : String) (params : CallbackParams)
    (exchange : ExchangeOutcome) : Option Credentials :=
  if params.state = some storedState then
    match exchange with
    | .ok c => some c
    | .err => none
  else none

/-- The distinct terminal outcomes of `google_callback`
(`views_calendar.py` lines 182-216), one per user-visible message. -/
inductive CallbackOutcome where
  | configError
  | sessionError
  | exchangeError
  | consentIncomplete
  | success
deriving DecidableEq

/-- `google_callback` (`views_calendar.py` lines 182-216).  Reads the
stored state and redirect URI from the session (missing either is the
"Sesión OAuth inválida" error), runs `fetch_token` (any raise is caught
and reported as a token-exchange error), then: a token with no
`refresh_token` pops the cached `google_creds` and warns
(consent-incomplete); otherwise the credentials are written to the
session and, for an authenticated user, to the database.  Note that
`google_oauth_state` and `google_oauth_redirect_uri` are never popped,
on success or on failure. -/
def googleCallback (cfgPresent : Bool) (sess : Session) (db : Db)
    (user : Nat) (authenticated : Bool) (params : CallbackParams)
    (exchange : ExchangeOutcome) : CallbackOutcome × Session × Db :=
  if cfgPresent then
    match sess.google_oauth_state, sess.google_oauth_redirect_uri with
    | some st, some _ =>
      match fetchToken st params exchange with
      | none => (.exchangeError, sess, db)
      | some creds =>
        match creds.refresh_token with
        | none => (.consentIncomplete, { sess with google_creds := none }, db)
        | some _ =>
          let sess' : Session := { sess with google_creds := some (.good creds.to_json) }
          let db' : Db := if authenticated then dbSaveUserCreds user creds db else db
          (.success, sess', db')
    | _, _ => (.sessionError, sess, db)
  else (.configError, sess, db)

/-- The single session key of the Drive flow
(`google_drive_oauth_state`, `views_drive_oauth.py` line 34). -/
structure DriveSession where
  google_drive_oauth_state : Option String
deriving DecidableEq

/-- Terminal outcomes of `google_drive_callback`
(`views_drive_oauth.py` lines 37-50).  `unhandledError` stands for an
exception escaping the view (the function wraps `fetch_token` in no
try/except at all). -/
inductive DriveCallbackOutcome where
  | badRequestState
  | badRequestConfig
  | unhandledError
  | success
deriving DecidableEq

/-- `google_drive_callback` (`views_drive_oauth.py` lines 37-50).  The
application-wide token file holds a pickled `Credentials` object.  After
a successful exchange the credentials are pickled to the token file
unconditionally — `refresh_token` is never inspected — and the stored
state is never popped; a `fetch_token` raise propagates unhandled. -/
def googleDriveCallback (clientFilePresent : Bool) (dsess : DriveSession)
    (tokenFile : Option Credentials) (params : CallbackParams)
    (exchange : ExchangeOutcome) :
    DriveCallbackOutcome × DriveSession × Option Credentials :=
  match dsess.google_drive_oauth_state with
  | none => (.badRequestState, dsess, tokenFile)
  | some st =>
    if clientFilePresent then
      match fetchToken st params exchange with
      | none => (.unhandledError, dsess, tokenFile)
      | some creds => (.success, dsess, some creds)
    else (.badRequestConfig, dsess, tokenFile)

/-- What `_build_creds` (`core/google_drive.py` lines 84-120) hands to
`build(...)`: user OAuth credentials from the token file, or a service
account (whose fields this spec does not track further). -/
inductive BuiltIdentity where
  | oauth (c : Credentials)
  | serviceAccount (impersonated : Bool)
deriving DecidableEq

/-- Exceptions raised by `_build_creds`. -/
inductive BuildError where
  | refreshError
  | noCredentials
deriving DecidableEq

/-- `_build_creds` (`core/google_drive.py` lines 84-120).  When the
OAuth token file exists it is unpickled; the refresh exchange runs only
when the credentials are expired AND a `refresh_token` is present (a
successful refresh is pickled back to the file, a rejection raises
`RefreshError`); in every other case — including an expired token with
no `refresh_token` — the unpickled credentials are returned unchanged.
With no token file, the service-account fallback is used when configured
(`GOOGLE_SERVICE_ACCOUNT_JSON`, `keys/service_account.json` or
`GOOGLE_SERVICE_ACCOUNT_FILE`, collapsed here to one flag), else a
`RuntimeError` is raised. -/
def buildCreds (now : Int) (tokenFile : Option Credentials)
    (resp : RefreshOutcome) (saConfigured : Bool) (impersonate : Bool) :
    Except BuildError (BuiltIdentity × Option Credentials) :=
  match tokenFile with
  | some creds =>
    if creds.expired now && creds.refresh_token.isSome then
      match resp with
      | .err => .error .refreshError
      | .ok t e =>
        let c' : Credentials := { creds with token := t, expiry := some e }
        .ok (.oauth c', some c')
    else .ok (.oauth creds, tokenFile)
  | none =>
    if saConfigured then .ok (.serviceAccount impersonate, tokenFile)
    else .error .noCredentials

/-- Outcome of the Calendar API call in `gcal_eventos`
(`service.events().list(...).execute()`): success, a `RefreshError`
raised mid-call (token invalid/revoked), or an `HttpError` with its
HTTP status (401 for an unauthenticated rejection). -/
inductive ApiCallOutcome where
  | ok
  | refreshErrorRaised
  | httpError (status : Nat)
deriving DecidableEq

/-- `gcal_eventos` (`views_calendar.py` lines 239-275).
`_get_valid_creds` runs OUTSIDE the try block, so its exceptions
propagate out of the view.  With no credentials the page renders
disconnected.  With credentials, the API call's `RefreshError` handler
calls `_clear_google_session` — clearing ONLY the web-session cache,
never the `GoogleOAuthToken` row — and an `HttpError` (any status,
including 401) only sets an error message, clearing nothing.  The
returned `Bool` is the `connected` flag. -/
def gcalEventos (now : Int) (sess : Session) (db : Db) (user : Nat)
    (authenticated : Bool) (resp : RefreshOutcome)
    (apiResult : ApiCallOutcome) : Except GError (Bool × Session × Db) :=
  match getValidCreds now sess db user authenticated resp with
  | .error e => .error e
  | .ok (none, s', d') => .ok (false, s', d')
  | .ok (some _, s', d') =>
    match apiResult with
    | .ok => .ok (true, s', d')
    | .refreshErrorRaised => .ok (false, clearGoogleSession s', d')
    | .httpError _ => .ok (false, s', d')

/-- `google_disconnect` (`views_calendar.py` lines 219-224): clears the
session AND deletes the `GoogleOAuthToken` row — the one place the
durable record is removed. -/
def googleDisconnect (user : Nat) (sess : Session) (db : Db) : Session × Db :=
  (clearGoogleSession sess, dbClearUserCreds user db)

/-- Python `str.strip()` on the shared-drive setting. -/
def pyStrip (s : String) : String :=
  String.mk (((s.data.dropWhile Char.isWhitespace).reverse.dropWhile
    Char.isWhitespace).reverse)

/-- `_root_container_id` (`core/google_drive.py` lines 38-48): the
`GOOGLE_SHARED_DRIVE_ID` setting (or env var), stripped; the empty
string when unconfigured. -/
def rootContainerId (sharedDriveSetting : String) : String :=
  pyStrip sharedDriveSetting

/-- The Python truthiness chain `parent_id or (_root_container_id() or
None)` of `upload_file` and `ensure_folder`: an absent or empty
`parent_id` falls back to the configured root container, and an empty
root falls through to `None`. -/
def effectiveParent (parentId : Option String) (root : String) : Option String :=
  match parentId with
  | some p => if p = "" then (if root = "" then none else some root) else some p
  | none => if root = "" then none else some root

/-- The metadata of the created Drive file that `upload_file` sends:
its name and its parent list. -/
structure UploadResult where
  name : String
  parents : List String
deriving DecidableEq

/-- `upload_file` (`core/google_drive.py` lines 199-225): resolves the
effective parent; when there is none it raises `RuntimeError` BEFORE
constructing the media upload, otherwise it creates the file with
exactly that one parent.  (Credential construction via `_svc()` is
orthogonal to the parent logic and elided here.) -/
def upload_file (filename : String) (parentId : Option String)
    (sharedDriveSetting : String) : Except String UploadResult :=
  match effectiveParent parentId (rootContainerId sharedDriveSetting) with
  | none => .error "No se especifico parent_id y no hay carpeta/drive root"
  | some p => .ok { name := filename, parents := [p] }

/-- Spec-side definition, following section 4.4 of the specification
word for word (for comparison with the code's `calScopeCheck`): the
documented "broader scope" pairs are the full read-write scope of each
resource family covering its read-only variant. -/
def broaderPairs : List (String × String) :=
  [(CAL_SCOPE, CAL_RO_SCOPE), (DRIVE_SCOPE, DRIVE_SCOPE ++ ".readonly")]

/-- Spec-side: one granted scope covers one required scope if equal or
documented-broader (read-write covers read-only, never the reverse). -/
def coversOne (g r : String) : Bool :=
  g == r || broaderPairs.any (fun p => p.1 == g && p.2 == r)

/-- Spec-side `covers(granted, required)` of section 4.4: every required
scope must be covered by some granted scope. -/
def covers (granted required : List String) : Bool :=
  required.all (fun r => granted.any (fun g => coversOne g r))

deriving instance DecidableEq for Except

theorem dbLookup_save (u : Nat) (c : Credentials) (db : Db) :
    dbLookup (dbSaveUserCreds u c db) u = some (.good c.to_json) := by
  simp [dbLookup, dbSaveUserCreds, List.find?]

theorem dbLookup_clear (u : Nat) (db : Db) :
    dbLookup (dbClearUserCreds u db) u = none := by
  unfold dbLookup dbClearUserCreds
  have h : List.find? (fun p => p.1 == u) (db.filter (fun p => p.1 != u)) = none := by
    rw [List.find?_eq_none]
    intro x hx
    have hkeep := List.of_mem_filter hx
    simp only [bne_iff_ne, ne_eq] at hkeep
    simp [hkeep]
  rw [h]
  rfl

/-- Claim C10: `upload_file` raises before any upload when no parent is
given (absent or empty `parent_id`) and no root container is configured,
and any successful upload carries exactly one nonempty parent id. -/
theorem C10_theorem :
    (∀ (filename : String) (parentId : Option String) (setting : String),
        (parentId = none ∨ parentId = some "") →
        rootContainerId setting = "" →
        upload_file filename parentId setting =
          .error "No se especifico parent_id y no hay carpeta/drive root")
    ∧ (∀ (filename : String) (parentId : Option String) (setting : String)
          (res : UploadResult),
        upload_file filename parentId setting = .ok res →
        ∃ p, res.parents = [p] ∧ p ≠ "") := by
  constructor
  · intro filename parentId setting hp hroot
    rcases hp with h | h <;> subst h <;>
      simp [upload_file, effectiveParent, hroot]
  · intro filename parentId setting res h
    unfold upload_file at h
    rcases hep : effectiveParent parentId (rootContainerId setting) with _ | p
    · rw [hep] at h
      exact absurd h (by simp)
    · rw [hep] at h
      simp only [Except.ok.injEq] at h
      refine ⟨p, ?_, ?_⟩
      · rw [← h]
      · intro hpe
        subst hpe
        unfold effectiveParent at hep
        rcases parentId with _ | v
        · by_cases hr : rootContainerId setting = "" <;> simp [hr] at hep
        · by_cases hv : v = ""
          · subst hv
            by_cases hr : rootContainerId setting = "" <;> simp [hr] at hep
          · simp [hv] at hep

/-- Claim C10 witness. -/
theorem C10_witness :
    upload_file "doc.pdf" (some "") "" =
      .error "No se especifico parent_id y no hay carpeta/drive root" :=
  C10_theorem.1 "doc.pdf" (some "") "" (Or.inr rfl) rfl

/-- Claim C7 counterexample: a record whose granted scopes differ from
the static `SCOPES` list is not returned field-for-field by `get` after
`put` — the scopes are replaced on read, in both the database-backed
store and the file-backed store. -/
theorem C7_counterexample :
    dbGetUserCreds 1 (dbSaveUserCreds 1 ⟨"a", some "r", some 10, [CAL_SCOPE, "extra"]⟩ [])
        = .ok (some ⟨"a", some "r", some 10, SCOPES⟩)
    ∧ dbGetUserCreds 1 (dbSaveUserCreds 1 ⟨"a", some "r", some 10, [CAL_SCOPE, "extra"]⟩ [])
        ≠ .ok (some ⟨"a", some "r", some 10, [CAL_SCOPE, "extra"]⟩)
    ∧ get_user_creds (save_user_creds ⟨"a", some "r", some 10, [CAL_SCOPE, "extra"]⟩)
        ≠ some ⟨"a", some "r", some 10, [CAL_SCOPE, "extra"]⟩ := by
  decide

/-- Claim C7 as amended: a put/get round trip preserves the access
token, the refresh token and the expiry, but the granted scopes are
replaced on read by the integration's configured scope list (`SCOPES`
for the database-backed store, the read-only `CAL_SCOPES` for the
file-backed store), because every read passes that list to
`from_authorized_user_info`. -/
theorem C7_theorem : ∀ (u : Nat) (c : Credentials) (db : Db),
    dbGetUserCreds u (dbSaveUserCreds u c db)
      = .ok (some { token := c.token, refresh_token := c.refresh_token,
                    expiry := c.expiry, scopes := SCOPES })
    ∧ get_user_creds (save_user_creds c)
      = some { token := c.token, refresh_token := c.refresh_token,
               expiry := c.expiry, scopes := CAL_SCOPES } := by
  intro u c db
  constructor
  · rw [dbGetUserCreds, dbLookup_save]
    rfl
  · rfl

/-- Claim C9 counterexample: a corrupt `credentials_json` row makes the
database-backed `get` raise (the only caught exception is
`DoesNotExist`), instead of returning absent. -/
theorem C9_counterexample :
    dbGetUserCreds 1 [(1, StoredCell.corrupt)] = .error .parseError
    ∧ dbGetUserCreds 1 [(1, StoredCell.corrupt)] ≠ .ok none := by
  decide

/-- Claim C9 as amended: the file-backed store (`get_user_creds`) and
the session cache inside `_get_valid_creds` both swallow a parse failure
and yield absent, but the database-backed `_db_get_user_creds` raises on
a corrupt row — the exception propagates (for an unauthenticated user
the database is never consulted, so the corrupt session cell alone still
fails soft). -/
theorem C9_theorem :
    get_user_creds (some StoredCell.corrupt) = none
    ∧ (∀ (u : Nat) (db : Db), dbLookup db u = some StoredCell.corrupt →
        dbGetUserCreds u db = .error .parseError)
    ∧ (∀ (now : Int) (st ru : Option String) (db : Db) (u : Nat)
          (resp : RefreshOutcome),
        getValidCreds now ⟨some StoredCell.corrupt, st, ru⟩ db u false resp
          = .ok (none, ⟨some StoredCell.corrupt, st, ru⟩, db)) := by
  refine ⟨rfl, ?_, ?_⟩
  · intro u db h
    rw [dbGetUserCreds, h]
  · intro now st ru db u resp
    rfl

/-- Claim C9 witness. -/
theorem C9_witness :
    dbGetUserCreds 2 [(2, StoredCell.corrupt)] = .error .parseError :=
  C9_theorem.2.1 2 [(2, StoredCell.corrupt)] rfl

/-- Claim C8 counterexample: with a stored database record for user 1
and a valid unexpired session token, an API call that fails with
`RefreshError` (token invalid/revoked) leaves the `GoogleOAuthToken` row
in place — only the web-session cache is cleared — and a mid-call 401
`HttpError` clears nothing at all; the claim says the durable record is
cleared. -/
theorem C8_counterexample :
    gcalEventos 100
        ⟨some (.good ⟨"a", some "r", some 200, [CAL_SCOPE]⟩), some "s", some "u"⟩
        [(1, .good ⟨"a", some "r", some 200, [CAL_SCOPE]⟩)] 1 true .err .refreshErrorRaised
      = .ok (false, ⟨none, none, none⟩, [(1, .good ⟨"a", some "r", some 200, [CAL_SCOPE]⟩)])
    ∧ dbLookup [(1, .good ⟨"a", some "r", some 200, [CAL_SCOPE]⟩)] 1
      = some (.good ⟨"a", some "r", some 200, [CAL_SCOPE]⟩)
    ∧ gcalEventos 100
        ⟨some (.good ⟨"a", some "r", some 200, [CAL_SCOPE]⟩), some "s", some "u"⟩
        [(1, .good ⟨"a", some "r", some 200, [CAL_SCOPE]⟩)] 1 true .err (.httpError 401)
      = .ok (false,
             ⟨some (.good ⟨"a", some "r", some 200, [CAL_SCOPE]⟩), some "s", some "u"⟩,
             [(1, .good ⟨"a", some "r", some 200, [CAL_SCOPE]⟩)]) := by
  decide

/-- Claim C8 as amended: on a `RefreshError` raised mid-call the view
clears only the ephemeral web-session cache (`_clear_google_session`);
the durable credential store is left untouched, and an `HttpError`
(including a 401) clears nothing.  The durable record is deleted only by
the explicit disconnect/reconnect views. -/
theorem C8_theorem :
    (∀ (now : Int) (sess s' : Session) (db d' : Db) (u : Nat) (auth : Bool)
        (resp : RefreshOutcome) (c : Credentials),
      getValidCreds now sess db u auth resp = .ok (some c, s', d') →
      gcalEventos now sess db u auth resp .refreshErrorRaised
          = .ok (false, clearGoogleSession s', d')
        ∧ ∀ n, gcalEventos now sess db u auth resp (.httpError n) = .ok (false, s', d'))
    ∧ (∀ (u : Nat) (sess : Session) (db : Db),
        dbLookup (googleDisconnect u sess db).2 u = none) := by
  constructor
  · intro now sess s' db d' u auth resp c h
    constructor
    · unfold gcalEventos
      rw [h]
    · intro n
      unfold gcalEventos
      rw [h]
  · intro u sess db
    exact dbLookup_clear u db

/-- Claim C8 witness. -/
theorem C8_witness :
    gcalEventos 0 ⟨some (.good ⟨"tk", some "rt", some 50, []⟩), none, none⟩ [] 4 false
        .err .refreshErrorRaised
      = .ok (false,
             clearGoogleSession ⟨some (.good ⟨"tk", some "rt", some 50, []⟩), none, none⟩,
             []) :=
  (C8_theorem.1 0 ⟨some (.good ⟨"tk", some "rt", some 50, []⟩), none, none⟩
    ⟨some (.good ⟨"tk", some "rt", some 50, []⟩), none, none⟩ [] [] 4 false .err
    (from_authorized_user_info ⟨"tk", some "rt", some 50, []⟩ SCOPES) (by decide)).1

/-- Claim C2 counterexample: the Drive callback persists the exchanged
credentials even though the provider returned no `refresh_token`, and
reports success — the claim says no record is persisted and the flow is
treated as consent-incomplete. -/
theorem C2_counterexample :
    (⟨"at", none, some 200, DRIVE_SCOPES⟩ : Credentials).refresh_token = none
    ∧ googleDriveCallback true ⟨some "s"⟩ none ⟨some "s", "c"⟩
        (.ok ⟨"at", none, some 200, DRIVE_SCOPES⟩)
      = (.success, ⟨some "s"⟩, some ⟨"at", none, some 200, DRIVE_SCOPES⟩) := by
  decide

/-- Claim C2 as amended: the Calendar callback behaves as claimed — an
exchange that yields no `refresh_token` ends as consent-incomplete, the
cached `google_creds` is dropped and nothing is persisted — but the
Drive callback pickles whatever credentials the exchange returned,
without ever inspecting `refresh_token`. -/
theorem C2_theorem :
    (∀ (sess : Session) (db : Db) (u : Nat) (auth : Bool) (st ru : String)
        (params : CallbackParams) (c : Credentials),
      sess.google_oauth_state = some st →
      sess.google_oauth_redirect_uri = some ru →
      params.state = some st →
      c.refresh_token = none →
      googleCallback true sess db u auth params (.ok c)
        = (.consentIncomplete, { sess with google_creds := none }, db))
    ∧ (∀ (dsess : DriveSession) (tokenFile : Option Credentials) (st : String)
        (params : CallbackParams) (c : Credentials),
      dsess.google_drive_oauth_state = some st →
      params.state = some st →
      googleDriveCallback true dsess tokenFile params (.ok c)
        = (.success, dsess, some c)) := by
  constructor
  · intro sess db u auth st ru params c h1 h2 h3 h4
    simp [googleCallback, h1, h2, fetchToken, h3, h4]
  · intro dsess tokenFile st params c h1 h2
    simp [googleDriveCallback, h1, fetchToken, h2]

/-- Claim C2 witness. -/
theorem C2_witness :
    googleCallback true ⟨none, some "sw", some "uw"⟩ [] 7 true ⟨some "sw", "cw"⟩
        (.ok ⟨"atw", none, some 300, [CAL_SCOPE]⟩)
      = (.consentIncomplete, ⟨none, some "sw", some "uw"⟩, []) :=
  C2_theorem.1 ⟨none, some "sw", some "uw"⟩ [] 7 true "sw" "uw" ⟨some "sw", "cw"⟩
    ⟨"atw", none, some 300, [CAL_SCOPE]⟩ rfl rfl rfl rfl

/-- Claim C5 counterexample: a callback whose `state` does not match the
stored nonce (session present, code valid) ends as a token-exchange
failure — a different outcome, with a different user-visible message,
from the `SessionError` ("Sesión OAuth inválida") the claim requires. -/
theorem C5_counterexample :
    googleCallback true ⟨none, some "s", some "u"⟩ [] 1 true ⟨some "t", "c"⟩
        (.ok ⟨"at", some "rt", some 200, [CAL_SCOPE]⟩)
      = (.exchangeError, ⟨none, some "s", some "u"⟩, [])
    ∧ CallbackOutcome.exchangeError ≠ CallbackOutcome.sessionError := by
  decide

/-- Claim C5 as amended: a missing session (no stored state or no stored
redirect URI) yields the `SessionError` outcome; a mismatched `state`
aborts inside `fetch_token` (`MismatchingStateError`) and surfaces as a
caught token-exchange failure in the Calendar callback and as an
unhandled exception in the Drive callback.  In every one of these cases
nothing is persisted: session, database and token file are returned
unchanged. -/
theorem C5_theorem :
    (∀ (sess : Session) (db : Db) (u : Nat) (auth : Bool)
        (params : CallbackParams) (ex : ExchangeOutcome),
      sess.google_oauth_state = none →
      googleCallback true sess db u auth params ex = (.sessionError, sess, db))
    ∧ (∀ (sess : Session) (db : Db) (u : Nat) (auth : Bool)
        (params : CallbackParams) (ex : ExchangeOutcome),
      sess.google_oauth_redirect_uri = none →
      googleCallback true sess db u auth params ex = (.sessionError, sess, db))
    ∧ (∀ (sess : Session) (db : Db) (u : Nat) (auth : Bool)
        (params : CallbackParams) (ex : ExchangeOutcome) (st ru : String),
      sess.google_oauth_state = some st →
      sess.google_oauth_redirect_uri = some ru →
      params.state ≠ some st →
      googleCallback true sess db u auth params ex = (.exchangeError, sess, db))
    ∧ (∀ (dsess : DriveSession) (tf : Option Credentials)
        (params : CallbackParams) (ex : ExchangeOutcome),
      dsess.google_drive_oauth_state = none →
      googleDriveCallback true dsess tf params ex = (.badRequestState, dsess, tf))
    ∧ (∀ (dsess : DriveSession) (tf : Option Credentials)
        (params : CallbackParams) (ex : ExchangeOutcome) (st : String),
      dsess.google_drive_oauth_state = some st →
      params.state ≠ some st →
      googleDriveCallback true dsess tf params ex = (.unhandledError, dsess, tf)) := by
  refine ⟨?_, ?_, ?_, ?_, ?_⟩
  · intro sess db u auth params ex h
    simp [googleCallback, h]
  · intro sess db u auth params ex h
    rcases h2 : sess.google_oauth_state with _ | st <;> simp [googleCallback, h, h2]
  · intro sess db u auth params ex st ru h1 h2 h3
    simp [googleCallback, h1, h2, fetchToken, h3]
  · intro dsess tf params ex h
    simp [googleDriveCallback, h]
  · intro dsess tf params ex st h1 h2
    simp [googleDriveCallback, h1, fetchToken, h2]

/-- Claim C5 witness. -/
theorem C5_witness :
    googleCallback true ⟨none, none, some "uw"⟩ [] 9 false ⟨some "x", "cw"⟩ .err
      = (.sessionError, ⟨none, none, some "uw"⟩, []) :=
  C5_theorem.1 ⟨none, none, some "uw"⟩ [] 9 false ⟨some "x", "cw"⟩ .err rfl

/-- Claim C1 counterexample: after a first successful callback the
session still holds the state nonce (the claim says it is removed as
part of `complete`), and a second invocation of the callback with the
same code and state again passes the session validation and again
succeeds, minting a second record — not the `SessionError` the claim
requires. -/
theorem C1_counterexample :
    (googleCallback true ⟨none, some "s", some "u"⟩ [] 1 true ⟨some "s", "c"⟩
        (.ok ⟨"at", some "rt", some 200, [CAL_SCOPE]⟩)).1 = .success
    ∧ (googleCallback true ⟨none, some "s", some "u"⟩ [] 1 true ⟨some "s", "c"⟩
        (.ok ⟨"at", some "rt", some 200, [CAL_SCOPE]⟩)).2.1.google_oauth_state = some "s"
    ∧ (googleCallback true
        (googleCallback true ⟨none, some "s", some "u"⟩ [] 1 true ⟨some "s", "c"⟩
          (.ok ⟨"at", some "rt", some 200, [CAL_SCOPE]⟩)).2.1
        (googleCallback true ⟨none, some "s", some "u"⟩ [] 1 true ⟨some "s", "c"⟩
          (.ok ⟨"at", some "rt", some 200, [CAL_SCOPE]⟩)).2.2
        1 true ⟨some "s", "c"⟩ (.ok ⟨"at", some "rt", some 200, [CAL_SCOPE]⟩)).1
      = .success := by
  decide

/-- Claim C1 as amended: `complete` never removes the stored session
state — after a successful callback the state and redirect URI survive
unchanged, so a second invocation with the same state passes the session
validation; it fails to mint a second record only when the provider
rejects the reused authorization code, in which case the outcome is the
token-exchange failure (not `SessionError`) and nothing further is
persisted. -/
theorem C1_theorem :
    ∀ (sess : Session) (db : Db) (u : Nat) (auth : Bool) (st ru rt : String)
      (params : CallbackParams) (c : Credentials),
      sess.google_oauth_state = some st →
      sess.google_oauth_redirect_uri = some ru →
      params.state = some st →
      c.refresh_token = some rt →
      (googleCallback true sess db u auth params (.ok c)).1 = .success
      ∧ (googleCallback true sess db u auth params (.ok c)).2.1.google_oauth_state = some st
      ∧ (googleCallback true sess db u auth params (.ok c)).2.1.google_oauth_redirect_uri
          = some ru
      ∧ googleCallback true (googleCallback true sess db u auth params (.ok c)).2.1
          (googleCallback true sess db u auth params (.ok c)).2.2 u auth params .err
        = (.exchangeError, (googleCallback true sess db u auth params (.ok c)).2.1,
           (googleCallback true sess db u auth params (.ok c)).2.2) := by
  intro sess db u auth st ru rt params c h1 h2 h3 h4
  have hrun : googleCallback true sess db u auth params (.ok c)
      = (.success, { sess with google_creds := some (.good c.to_json) },
         if auth then dbSaveUserCreds u c db else db) := by
    simp [googleCallback, h1, h2, fetchToken, h3, h4]
  rw [hrun]
  refine ⟨rfl, h1, h2, ?_⟩
  simp [googleCallback, h1, h2, fetchToken, h3]

/-- Claim C1 witness. -/
theorem C1_witness :
    (googleCallback true ⟨none, some "sa", some "ua"⟩ [] 3 false ⟨some "sa", "ca"⟩
        (.ok ⟨"ta", some "ra", some 5, [CAL_SCOPE]⟩)).1 = .success
    ∧ (googleCallback true ⟨none, some "sa", some "ua"⟩ [] 3 false ⟨some "sa", "ca"⟩
        (.ok ⟨"ta", some "ra", some 5, [CAL_SCOPE]⟩)).2.1.google_oauth_state = some "sa"
    ∧ (googleCallback true ⟨none, some "sa", some "ua"⟩ [] 3 false ⟨some "sa", "ca"⟩
        (.ok ⟨"ta", some "ra", some 5, [CAL_SCOPE]⟩)).2.1.google_oauth_redirect_uri
        = some "ua"
    ∧ googleCallback true
        (googleCallback true ⟨none, some "sa", some "ua"⟩ [] 3 false ⟨some "sa", "ca"⟩
          (.ok ⟨"ta", some "ra", some 5, [CAL_SCOPE]⟩)).2.1
        (googleCallback true ⟨none, some "sa", some "ua"⟩ [] 3 false ⟨some "sa", "ca"⟩
          (.ok ⟨"ta", some "ra", some 5, [CAL_SCOPE]⟩)).2.2 3 false ⟨some "sa", "ca"⟩ .err
      = (.exchangeError,
         (googleCallback true ⟨none, some "sa", some "ua"⟩ [] 3 false ⟨some "sa", "ca"⟩
           (.ok ⟨"ta", some "ra", some 5, [CAL_SCOPE]⟩)).2.1,
         (googleCallback true ⟨none, some "sa", some "ua"⟩ [] 3 false ⟨some "sa", "ca"⟩
           (.ok ⟨"ta", some "ra", some 5, [CAL_SCOPE]⟩)).2.2) :=
  C1_theorem ⟨none, some "sa", some "ua"⟩ [] 3 false "sa" "ua" "ra" ⟨some "sa", "ca"⟩
    ⟨"ta", some "ra", some 5, [CAL_SCOPE]⟩ rfl rfl rfl rfl

/-- Claim C4 counterexample: `_build_creds` given an expired pickled
token with no `refresh_token` returns the expired credentials unchanged
to its caller — not a `RefreshFailure` — though it indeed attempts no
refresh. -/
theorem C4_counterexample :
    buildCreds 100 (some ⟨"a", none, some 50, DRIVE_SCOPES⟩) .err true false
      = .ok (.oauth ⟨"a", none, some 50, DRIVE_SCOPES⟩,
             some ⟨"a", none, some 50, DRIVE_SCOPES⟩)
    ∧ (⟨"a", none, some 50, DRIVE_SCOPES⟩ : Credentials).expired 100 = true
    ∧ (⟨"a", none, some 50, DRIVE_SCOPES⟩ : Credentials).refresh_token = none := by
  decide

/-- Claim C4 as amended: with an expired record lacking a
`refresh_token`, neither path attempts a network refresh (the result is
the same for every provider outcome), but only the Calendar path
(`_get_valid_creds`) treats the token as absent (`None`); the Drive path
(`_build_creds`) hands the expired credentials to its caller
unchanged. -/
theorem C4_theorem :
    (∀ (now ex : Int) (j : TokenJson) (sess : Session) (db : Db) (u : Nat)
        (auth : Bool) (resp : RefreshOutcome),
      sess.google_creds = some (.good j) →
      j.expiry = some ex → ex ≤ now → j.refresh_token = none →
      getValidCreds now sess db u auth resp = .ok (none, sess, db))
    ∧ (∀ (now ex : Int) (c : Credentials) (resp : RefreshOutcome) (sa imp : Bool),
      c.expiry = some ex → ex ≤ now → c.refresh_token = none →
      buildCreds now (some c) resp sa imp = .ok (.oauth c, some c)) := by
  constructor
  · intro now ex j sess db u auth resp h1 h2 h3 h4
    simp [getValidCreds, sessionLoad, h1, afterLoad, from_authorized_user_info,
          Credentials.expired, h2, h3, h4]
  · intro now ex c resp sa imp h1 h2 h3
    simp [buildCreds, Credentials.expired, h1, h2, h3]

/-- Claim C4 witness. -/
theorem C4_witness :
    buildCreds 10 (some ⟨"aw", none, some 3, DRIVE_SCOPES⟩) (.ok "x" 99) false false
      = .ok (.oauth ⟨"aw", none, some 3, DRIVE_SCOPES⟩,
             some ⟨"aw", none, some 3, DRIVE_SCOPES⟩) :=
  C4_theorem.2 10 3 ⟨"aw", none, some 3, DRIVE_SCOPES⟩ (.ok "x" 99) false false rfl
    (by decide) rfl

/-- Claim C3: an expired record with a `refresh_token` is never returned
unchanged — `_get_valid_creds` either propagates the provider's
rejection (`RefreshError`) or returns a refreshed record whose expiry is
the provider's fresh future expiry, with the `refresh_token` preserved
and the refreshed record persisted into the database; `_build_creds`
behaves the same for the Drive token file (the refreshed credentials are
pickled back).  The future-expiry hypothesis models the provider
contract that a freshly minted access token expires after `now`. -/
theorem C3_theorem :
    (∀ (now ex : Int) (j : TokenJson) (r : String) (sess : Session) (db : Db)
        (u : Nat) (resp : RefreshOutcome),
      sess.google_creds = some (.good j) →
      j.expiry = some ex → ex ≤ now → j.refresh_token = some r →
      (∀ t e, resp = .ok t e → now < e) →
      getValidCreds now sess db u true resp = .error .refreshError
      ∨ ∃ c' sess' db', getValidCreds now sess db u true resp = .ok (some c', sess', db')
          ∧ (∃ e, c'.expiry = some e ∧ now < e)
          ∧ c'.refresh_token = some r
          ∧ dbLookup db' u = some (.good c'.to_json))
    ∧ (∀ (now : Int) (c : Credentials) (resp : RefreshOutcome) (sa imp : Bool),
      c.expired now = true → c.refresh_token.isSome = true →
      (∀ t e, resp = .ok t e → now < e) →
      buildCreds now (some c) resp sa imp = .error .refreshError
      ∨ ∃ c', buildCreds now (some c) resp sa imp = .ok (.oauth c', some c')
          ∧ (∃ e, c'.expiry = some e ∧ now < e)
          ∧ c'.refresh_token = c.refresh_token) := by
  constructor
  · intro now ex j r sess db u resp h1 h2 h3 h4 hf
    cases resp with
    | err =>
      left
      simp [getValidCreds, sessionLoad, h1, afterLoad, from_authorized_user_info,
            Credentials.expired, h2, h3, h4]
    | ok t e =>
      right
      have hcs : calScopeCheck SCOPES = true := by decide
      refine ⟨⟨t, some r, some e, SCOPES⟩, ?_, ?_, ?_, ⟨e, rfl, hf t e rfl⟩, rfl, ?_⟩
      · exact { sess with
          google_creds := some (StoredCell.good (Credentials.to_json ⟨t, some r, some e, SCOPES⟩)) }
      · exact dbSaveUserCreds u ⟨t, some r, some e, SCOPES⟩ db
      · simp [getValidCreds, sessionLoad, h1, afterLoad, from_authorized_user_info,
              Credentials.expired, h2, h3, h4, hcs, Credentials.to_json]
      · exact dbLookup_save u _ db
  · intro now c resp sa imp h1 h2 hf
    cases resp with
    | err =>
      left
      simp [buildCreds, h1, h2]
    | ok t e =>
      right
      refine ⟨{ c with token := t, expiry := some e }, ?_, ⟨e, rfl, hf t e rfl⟩, rfl⟩
      simp [buildCreds, h1, h2]

/-- Claim C3 witness. -/
theorem C3_witness :
    getValidCreds 100
        ⟨some (.good ⟨"old", some "r", some 50, [CAL_SCOPE]⟩), none, none⟩ [] 1 true
        (.ok "nt" 500)
      = .error .refreshError
    ∨ ∃ c' sess' db',
        getValidCreds 100
            ⟨some (.good ⟨"old", some "r", some 50, [CAL_SCOPE]⟩), none, none⟩ [] 1 true
            (.ok "nt" 500)
          = .ok (some c', sess', db')
        ∧ (∃ e, c'.expiry = some e ∧ (100 : Int) < e)
        ∧ c'.refresh_token = some "r"
        ∧ dbLookup db' 1 = some (.good c'.to_json) :=
  C3_theorem.1 100 50 ⟨"old", some "r", some 50, [CAL_SCOPE]⟩ "r"
    ⟨some (.good ⟨"old", some "r", some 50, [CAL_SCOPE]⟩), none, none⟩ [] 1 (.ok "nt" 500)
    rfl rfl (by decide) rfl (by intro t e h; cases h; decide)

/-- Claim C6 counterexample: the code's scope check accepts a granted
set consisting of only the read-only calendar scope when the required
scope is the full read-write scope — the narrower scope is accepted for
the broader requirement, the exact reverse of what the claim allows
(the spec-side `covers` correctly rejects it). -/
theorem C6_counterexample :
    calScopeCheck [CAL_RO_SCOPE] = true
    ∧ covers [CAL_RO_SCOPE] SCOPES = false
    ∧ CAL_RO_SCOPE ≠ CAL_SCOPE := by
  decide

/-- Claim C6 as amended: the in-code validator accepts every granted set
the spec's equal-or-broader rule accepts, but it additionally accepts
any scope string extending `CAL_SCOPE` with a dot — including the
strictly narrower read-only scope; and a token whose scopes fail the
code's check is treated as a failure (`None`) even when unexpired. -/
theorem C6_theorem :
    (∀ (g : List String), covers g SCOPES = true → calScopeCheck g = true)
    ∧ (∀ (now : Int) (c : Credentials) (sess : Session) (db : Db) (u : Nat)
        (auth : Bool) (resp : RefreshOutcome),
      c.expired now = false → calScopeCheck c.scopes = false →
      afterLoad now c sess db u auth resp = .ok (none, sess, db)) := by
  constructor
  · intro g hg
    simp only [covers, SCOPES, List.all_cons, List.all_nil, Bool.and_true] at hg
    rw [List.any_eq_true] at hg
    obtain ⟨x, hx, hone⟩ := hg
    have hxeq : x = CAL_SCOPE := by
      simp only [coversOne, broaderPairs, List.any_cons, List.any_nil, Bool.or_false,
        Bool.or_eq_true, Bool.and_eq_true, beq_iff_eq] at hone
      rcases hone with h | h | h
      · exact h
      · exact absurd h.2 (by decide)
      · exact absurd h.2 (by decide)
    subst hxeq
    have hc : g.contains CAL_SCOPE = true := List.elem_eq_true_of_mem hx
    unfold calScopeCheck
    rw [hc, Bool.true_or]
  · intro now c sess db u auth resp h1 h2
    simp [afterLoad, h1, h2]

/-- Claim C6 witness. -/
theorem C6_witness : calScopeCheck SCOPES = true :=
  C6_theorem.1 SCOPES (by decide)

end ConfidenciaKoyeb
